import Mathlib

/-!
Verification development for the asynchronous job orchestration client of
the technical-analysis-ai repository.

The repository's six Python scripts share one pattern: submit a generation
request to the Replicate predictions API (POST), poll the prediction by id
(GET) until a terminal status, then download the output URIs.  We embed the
network boundary as explicit data: an `HttpResult` value stands for what a
single `requests` call delivers to the caller — either a raised
`RequestException` (`err`, covering connection errors and timeouts) or a
delivered response with its HTTP status code and already-parsed JSON body.
JSON-decode failures of a delivered body are outside the model; body fields
that the code reads with `dict.get` are modelled with `Option`/default
values exactly as the source reads them.  Wall-clock sleeping
(`time.sleep`) and timestamped file naming are presentation effects; an
artifact is identified by its source URI.
-/

namespace TAAI

/-- Result of one `requests` call: `err` models a raised
`requests.exceptions.RequestException` (network unreachable, timeout);
`resp code body` models a delivered response with HTTP status `code` and
parsed JSON body `body`. -/
inductive HttpResult (α : Type) where
  | err : HttpResult α
  | resp : Nat → α → HttpResult α
deriving DecidableEq

/-- Parsed body of a status query, as `_poll_prediction` reads it:
`status` is `data.get('status')` (absent key gives `none`), `output` is
`data.get('output', [])` (absent key gives `[]`), `error` is the value
behind `data.get('error', 'Unknown error')` before the default is
applied. -/
structure PollData where
  status : Option String
  output : List String
  error : Option String
deriving DecidableEq

/-- Observable events of one poll run, mirroring the print statements and
network actions of `_poll_prediction` and `_download_assets` in
`generate_premium_trading_assets.py`. -/
inductive PollEvent where
  | query
  | succeededNoOutput
  | remoteFailed (e : String)
  | progress (s : Option String)
  | unknownStatus (s : Option String)
  | transportError
  | timeout
  | downloaded (u : String)
  | downloadFailed (u : String)
deriving DecidableEq

/-- Outcome of `_poll_prediction`: the value returned to the caller
(`none` both on timeout, remote failure and empty success), the number of
status GETs issued, and the event trace. -/
structure PollOutcome where
  result : Option (List String)
  queries : Nat
  trace : List PollEvent
deriving DecidableEq

/-- Outcome of `_download_assets`: the list of persisted artifacts
(identified by source URI) and the event trace. -/
structure FetchOutcome where
  files : List String
  trace : List PollEvent
deriving DecidableEq

/-- Embedding of `_download_assets` (generate_premium_trading_assets.py,
lines 206-228; generate_stunning_trading_icon.py has the identical body):
for each URI in order, GET it; `raise_for_status` turns a status ≥ 400
into a caught `RequestException`, which is logged and — like a transport
error — skipped, the loop continuing with the next URI.  Successfully
fetched bytes are persisted and the path appended to the returned list. -/
def downloadAssets (f : String → HttpResult Unit) : List String → FetchOutcome
  | [] => ⟨[], []⟩
  | u :: us =>
    match f u with
    | .err =>
      let rest := downloadAssets f us
      ⟨rest.files, .downloadFailed u :: rest.trace⟩
    | .resp c _ =>
      if 400 ≤ c then
        let rest := downloadAssets f us
        ⟨rest.files, .downloadFailed u :: rest.trace⟩
      else
        let rest := downloadAssets f us
        ⟨u :: rest.files, .downloaded u :: rest.trace⟩

/-- Embedding of the loop body of `_poll_prediction`
(generate_premium_trading_assets.py, lines 166-204): `g a` is what the
status GET of attempt index `a` delivers, `r` the remaining iterations of
`for attempt in range(max_attempts)`.  A raised `RequestException`
(transport error or, via `raise_for_status`, a status ≥ 400) is caught,
logged, slept over and the loop continues.  Status `succeeded` with a
truthy output list downloads; with a falsy one returns `None`.  Status
`failed` returns `None` with the reported error.  `starting`/`processing`
and any other (unknown) status sleep and continue.  Falling off the loop
prints the timeout message and returns `None`. -/
def pollAux (g : Nat → HttpResult PollData) (f : String → HttpResult Unit) :
    Nat → Nat → PollOutcome
  | _, 0 => ⟨none, 0, [.timeout]⟩
  | a, r + 1 =>
    match g a with
    | .err =>
      let o := pollAux g f (a + 1) r
      ⟨o.result, o.queries + 1, .query :: .transportError :: o.trace⟩
    | .resp code d =>
      if 400 ≤ code then
        let o := pollAux g f (a + 1) r
        ⟨o.result, o.queries + 1, .query :: .transportError :: o.trace⟩
      else if d.status == some "succeeded" then
        if d.output.isEmpty then ⟨none, 1, [.query, .succeededNoOutput]⟩
        else
          let dl := downloadAssets f d.output
          ⟨some dl.files, 1, .query :: dl.trace⟩
      else if d.status == some "failed" then
        ⟨none, 1, [.query, .remoteFailed (d.error.getD "Unknown error")]⟩
      else if d.status == some "starting" || d.status == some "processing" then
        let o := pollAux g f (a + 1) r
        ⟨o.result, o.queries + 1, .query :: .progress d.status :: o.trace⟩
      else
        let o := pollAux g f (a + 1) r
        ⟨o.result, o.queries + 1, .query :: .unknownStatus d.status :: o.trace⟩

/-- `_poll_prediction(prediction_id, prefix, max_attempts)`: run the loop
from attempt 0 with `maxAttempts` iterations available (the source default
is 60). -/
def pollPrediction (g : Nat → HttpResult PollData) (f : String → HttpResult Unit)
    (maxAttempts : Nat) : PollOutcome :=
  pollAux g f 0 maxAttempts

/-- A delivered status response is terminal when `raise_for_status` does
not raise (code < 400) and the status field is `succeeded` or `failed` —
exactly the two branches of `_poll_prediction` that return without another
iteration. -/
def isTerminal : HttpResult PollData → Bool
  | .err => false
  | .resp c d =>
    if 400 ≤ c then false
    else d.status == some "succeeded" || d.status == some "failed"

/-- A poll attempt fails at the transport layer when the GET raises or
`raise_for_status` raises (code ≥ 400): both land in the
`except requests.exceptions.RequestException` arm of `_poll_prediction`. -/
def isTransportFail : HttpResult PollData → Bool
  | .err => true
  | .resp c _ => if 400 ≤ c then true else false

/-- A delivered status response that reports explicit remote failure. -/
def isFailed : HttpResult PollData → Bool
  | .err => false
  | .resp c d => if 400 ≤ c then false else d.status == some "failed"

/-- A delivered status response reporting success with a truthy (nonempty)
output list — the branch of `_poll_prediction` that downloads. -/
def isSucceededWithOutput : HttpResult PollData → Bool
  | .err => false
  | .resp c d =>
    if 400 ≤ c then false
    else d.status == some "succeeded" && !d.output.isEmpty

/-- Status strings recognized by `_poll_prediction`'s if/elif chain. -/
def knownStatus (s : Option String) : Bool :=
  s == some "succeeded" || s == some "failed" ||
    s == some "starting" || s == some "processing"

/-- Parsed body of the submission POST response: `id` is the value at key
`id` of the JSON body (`none` when the key is absent). -/
structure SubmitBody where
  id : Option String
deriving DecidableEq

/-- Outcome of the submission phase of `_make_request`
(generate_premium_trading_assets.py, lines 147-164). -/
inductive SubmitOutcome where
  | handle (id : String)
  | submissionError
  | pythonError
deriving DecidableEq

/-- Embedding of the submission phase of `_make_request`: a raised
`RequestException` — from the POST itself or from `raise_for_status`
(code ≥ 400) — is caught, printed and turned into `None`
(`submissionError`).  Otherwise `prediction_data['id']` is read; a missing
key raises an uncaught `KeyError` (`pythonError`), else polling proceeds
with the id (`handle`). -/
def makeRequestSubmit : HttpResult SubmitBody → SubmitOutcome
  | .err => .submissionError
  | .resp code body =>
    if 400 ≤ code then .submissionError
    else
      match body.id with
      | some i => .handle i
      | none => .pythonError

/-- Embedding of the submission phase of `generate_ai_icon`
(create_ai_trading_icons.py, lines 33-41; `generate_professional_icon` in
create_professional_fintech_icon.py is identical): polling is entered only
when `response.status_code == 201` exactly; any other delivered code falls
through the `if` and the function silently returns `None`.  A raised
exception — including the `KeyError` when a 201 body lacks `id` — is
caught by the blanket `except Exception` and also yields `None`.  The
returned value is the prediction id the poll loop is entered with. -/
def aiSubmit : HttpResult SubmitBody → Option String
  | .err => none
  | .resp code body => if code = 201 then body.id else none

/-- True exactly for HTTP success codes (2xx). -/
def is2xx (c : Nat) : Bool := decide (200 ≤ c) && decide (c < 300)

/-- Parsed body of a status query as `generate_ai_icon` reads it:
`data['status']` (a missing key raises `KeyError`, hence `Option`) and
`data['output']` (a missing key and an empty list both raise on
`data['output'][0]`, so the two are identified and modelled as `[]`). -/
structure AiData where
  status : Option String
  output : List String
deriving DecidableEq

/-- Embedding of the unbounded `while True` poll loop of
`generate_ai_icon` (create_ai_trading_icons.py, lines 42-73), run for
`fuel` iterations starting at attempt index `a`.  The first component is
`none` while the loop is still running when fuel runs out, and
`some res` when the function returned with `res`; the second component
counts the status GETs issued.  Per iteration: a raised exception
anywhere (status GET, `KeyError`, `data['output'][0]`, download GET)
propagates to the blanket `except Exception` and the function returns
`None`; a non-200 status-GET code prints and breaks (returning `None`);
`succeeded` downloads the first output URI, returning the saved file on a
200 download and breaking (to `None`) otherwise; `failed` breaks; every
other status sleeps 2 seconds and loops again. -/
def aiPollFuel (g : Nat → HttpResult AiData) (dl : String → HttpResult Unit) :
    Nat → Nat → Option (Option String) × Nat
  | _, 0 => (none, 0)
  | a, fuel + 1 =>
    match g a with
    | .err => (some none, 1)
    | .resp code d =>
      if code = 200 then
        match d.status with
        | none => (some none, 1)
        | some s =>
          if s = "succeeded" then
            match d.output.head? with
            | none => (some none, 1)
            | some url =>
              match dl url with
              | .err => (some none, 1)
              | .resp c _ => if c = 200 then (some (some url), 1) else (some none, 1)
          else if s = "failed" then (some none, 1)
          else
            let o := aiPollFuel g dl (a + 1) fuel
            (o.1, o.2 + 1)
      else (some none, 1)

/-- Parsed body of a status query as `generate_fintech_icon`
(create_fintech_mobile_icon.py) reads it: `data['status']` raises
`KeyError` when absent (hence `Option`); `data['output'][0]` raises when
the key is absent or the list empty, so both are modelled as `[]`. -/
structure FintechData where
  status : Option String
  output : List String
deriving DecidableEq

/-- Embedding of the bounded poll loop of `generate_fintech_icon`
(create_fintech_mobile_icon.py, lines 42-69), starting at attempt `a` with
`r` iterations of `for attempt in range(60)` remaining.  The whole
function body sits inside one `try`, so any raised exception — a failed
status GET, a missing `status` key, `data['output'][0]` on an empty
output, a failed download GET — reaches the outer `except Exception` and
returns `None`.  The status GET's code is never checked and the download's
code is never checked: delivered bytes are written regardless.  Statuses
other than `succeeded`/`failed` sleep and consume an attempt; exhausting
the loop prints the timeout message and returns `None`. -/
def fintechPollAux (g : Nat → HttpResult FintechData) (dl : String → HttpResult Unit) :
    Nat → Nat → Option String
  | _, 0 => none
  | a, r + 1 =>
    match g a with
    | .err => none
    | .resp _ d =>
      match d.status with
      | none => none
      | some s =>
        if s = "succeeded" then
          match d.output.head? with
          | none => none
          | some url =>
            match dl url with
            | .err => none
            | .resp _ _ => some url
        else if s = "failed" then none
        else fintechPollAux g dl (a + 1) r

/-- The remote behaviour one request of the fintech batch sees: the
submission POST's delivery, the status GET stream, and the artifact
download behaviour per URI. -/
structure FintechEnv where
  submit : HttpResult SubmitBody
  poll : Nat → HttpResult FintechData
  fetch : String → HttpResult Unit

/-- Embedding of one full `generate_fintech_icon` pipeline: POST, then
`raise_for_status` (a raised `RequestException` or a code ≥ 400 reaches
the outer `except Exception` and yields `None`), then
`response.json()['id']` (missing key raises, caught, `None`), then the
60-attempt poll loop.  Every failure path is caught by the one blanket
handler, so the pipeline is a total function into `Option`. -/
def fintechPipeline (e : FintechEnv) : Option String :=
  match e.submit with
  | .err => none
  | .resp code body =>
    if 400 ≤ code then none
    else
      match body.id with
      | none => none
      | some _ => fintechPollAux e.poll e.fetch 0 60

/-- Embedding of `main` in create_fintech_mobile_icon.py (lines 90-95):
iterate over the requests in order, run the pipeline for each, and append
the result to `results` only when it is truthy.  The first component is
the collected `results` list, the second records which requests the loop
actually invoked the pipeline for, in order. -/
def runFintechBatch (env : String → FintechEnv) : List String → List String × List String
  | [] => ([], [])
  | r :: rs =>
    let res := fintechPipeline (env r)
    let rest := runFintechBatch env rs
    (match res with
      | some fp => fp :: rest.1
      | none => rest.1,
     r :: rest.2)

/-- Python `d.get(k, default)` on a dict literal, modelled as an ordered
association list: the value of the first matching key, else the default.
Never raises. -/
def pyDictGet {α : Type} (d : List (String × α)) (k : String) (dflt : α) : α :=
  ((d.find? (fun p => p.1 == k)).map Prod.snd).getD dflt

/-- Python `d[k]` on a dict literal: `none` models a raised `KeyError`. -/
def pyDictIndex {α : Type} (d : List (String × α)) (k : String) : Option α :=
  (d.find? (fun p => p.1 == k)).map Prod.snd

/-- Python `l[i]` with its negative-index semantics: a negative `i` counts
from the end; `none` models a raised `IndexError`. -/
def pyIndex {α : Type} (l : List α) (i : Int) : Option α :=
  let j := if i < 0 then i + l.length else i
  if 0 ≤ j then l.get? j.toNat else none

/-- The `modern` prompt list of `generate_ai_analytics_icon`
(generate_premium_app_icon.py). -/
def modernPrompts : List String :=
  ["3D isometric trading chart icon, ascending candlestick pattern, vibrant teal gradient (#00D4AA), glossy finish, professional fintech style, floating elements, clean white background, mobile app icon, ultra detailed, 4K quality",
   "Minimalist bull market symbol, elegant upward arrow with data points, teal green (#00D4AA) to emerald gradient, sleek modern design, premium fintech branding, white background, mobile optimized icon",
   "Geometric crystal-style analytics cube, faceted surfaces, teal (#00D4AA) gradient lighting, floating financial data streams, modern luxury design, white background, professional mobile app icon"]

/-- The `luxury` prompt list of `generate_ai_analytics_icon`. -/
def luxuryPrompts : List String :=
  ["Premium golden bull silhouette with teal accents (#00D4AA), sophisticated gradient, elegant financial symbol, luxury trading app icon, minimal design, white background, high-end fintech branding",
   "Luxury diamond-cut chart icon, multifaceted crystalline structure, gold and teal (#00D4AA) gradient, premium reflection effects, sophisticated trading symbol, white background, mobile app icon",
   "Elegant rising arrow with golden particles, teal (#00D4AA) energy trail, luxury fintech design, premium gradient effects, sophisticated trading icon, clean white background"]

/-- The `tech` prompt list of `generate_ai_analytics_icon`. -/
def techPrompts : List String :=
  ["Futuristic holographic trading interface, neon teal (#00D4AA) glow, floating data visualizations, sci-fi financial dashboard, high-tech design, dark to light gradient background, mobile app icon",
   "Digital DNA helix made of financial data, glowing teal (#00D4AA) elements, futuristic trading symbol, tech-forward design, gradient background, professional mobile icon",
   "Cyber grid with rising profit arrow, electric teal (#00D4AA) energy, digital matrix style, futuristic trading icon, high-tech gradient background, mobile optimized"]

/-- The `prompts` dict literal of `generate_ai_analytics_icon`
(generate_premium_app_icon.py, lines 26-45). -/
def aiAnalyticsPromptTable : List (String × List String) :=
  [("modern", modernPrompts), ("luxury", luxuryPrompts), ("tech", techPrompts)]

/-- `prompts.get(style, prompts["modern"])` — Python evaluates the default
argument `prompts["modern"]` first, so a missing `modern` key would raise
(`none`); otherwise the lookup falls back to it. -/
def aiAnalyticsPrompts (style : String) : Option (List String) :=
  match pyDictIndex aiAnalyticsPromptTable "modern" with
  | none => none
  | some dflt => some (pyDictGet aiAnalyticsPromptTable style dflt)

/-- Embedding of the prompt selection of `generate_ai_analytics_icon`
(generate_premium_app_icon.py, lines 46-47):
`selected_prompts[variation - 1] if variation <= len(selected_prompts)
else selected_prompts[0]`.  `none` models a raised exception. -/
def selectPrompt (style : String) (variation : Int) : Option String :=
  match aiAnalyticsPrompts style with
  | none => none
  | some sp =>
    if variation ≤ (sp.length : Int) then pyIndex sp (variation - 1)
    else pyIndex sp 0

/-- The `prompts` dict literal of `generate_trading_button`
(generate_premium_trading_assets.py, lines 27-32); each value is the
f-string with `color_scheme` interpolated. -/
def tradingButtonPrompts (c : String) : List (String × String) :=
  [("glassmorphic", "Ultra-modern glassmorphic trading button with " ++ c ++ " accent, transparent background, subtle glow effect, professional fintech design, 3D depth, clean typography \x27BUY\x27, high-end mobile app UI, 4K resolution"),
   ("neomorphic", "Sleek neomorphic trading button with " ++ c ++ " gradient, soft shadows, embossed effect, premium fintech aesthetic, \x27SELL\x27 text, mobile-first design, ultra-clean"),
   ("gradient", "Premium gradient trading button with " ++ c ++ " to gold transition, metallic finish, luxury fintech design, \x27TRADE\x27 text, professional mobile app interface"),
   ("holographic", "Futuristic holographic trading button with " ++ c ++ " iridescent effect, digital glow, sci-fi fintech design, \x27INVEST\x27 text, next-gen mobile UI")]

/-- `prompts.get(style, prompts["glassmorphic"])` of
`generate_trading_button` (generate_premium_trading_assets.py, line 37):
the default argument `prompts["glassmorphic"]` is evaluated first (`none`
would model its `KeyError`), then the style lookup falls back to it. -/
def tradingButtonPrompt (style c : String) : Option String :=
  match pyDictIndex (tradingButtonPrompts c) "glassmorphic" with
  | none => none
  | some dflt => some (pyDictGet (tradingButtonPrompts c) style dflt)

/-- A single artifact GET succeeds when it is delivered and
`raise_for_status` does not raise. -/
def fetchOk (f : String → HttpResult Unit) (u : String) : Bool :=
  match f u with
  | .err => false
  | .resp c _ => if 400 ≤ c then false else true

/-- Concrete fetcher that always delivers the artifact bytes. -/
def fetchAllOk : String → HttpResult Unit := fun _ => .resp 200 ()

/-- Concrete fetcher whose GETs always raise. -/
def fetchAllErr : String → HttpResult Unit := fun _ => .err

/-- Status stream that reports `processing` forever. -/
def streamProcessing : Nat → HttpResult PollData :=
  fun _ => .resp 200 ⟨some "processing", [], none⟩

/-- Status stream reporting `processing` once, then success with one URI. -/
def streamTerm : Nat → HttpResult PollData :=
  fun n =>
    if n = 0 then .resp 200 ⟨some "processing", [], none⟩
    else .resp 200 ⟨some "succeeded", ["u1"], none⟩

/-- Status stream reporting remote failure at once. -/
def streamFail : Nat → HttpResult PollData :=
  fun _ => .resp 200 ⟨some "failed", [], some "NSFW content detected"⟩

/-- Status stream whose GETs always raise. -/
def streamErr : Nat → HttpResult PollData := fun _ => .err

/-- Status stream with a single transport blip followed by success. -/
def streamBlip : Nat → HttpResult PollData :=
  fun n => if n = 0 then .err else .resp 200 ⟨some "succeeded", ["u1"], none⟩

/-- Status stream reporting an unrecognized status forever. -/
def streamQueued : Nat → HttpResult PollData :=
  fun _ => .resp 200 ⟨some "queued", [], none⟩

/-- Status stream reporting success with an empty output list. -/
def streamEmptySuccess : Nat → HttpResult PollData :=
  fun _ => .resp 200 ⟨some "succeeded", [], none⟩

/-- Status stream for `generate_ai_icon` that reports `processing`
forever. -/
def aiStreamProcessing : Nat → HttpResult AiData :=
  fun _ => .resp 200 ⟨some "processing", []⟩

/-- Fintech status stream: one transport blip, then success with one URI. -/
def fintechBlip : Nat → HttpResult FintechData :=
  fun n => if n = 0 then .err else .resp 200 ⟨some "succeeded", ["u"]⟩

/-- Fintech status stream that succeeds at once with one URI — the same
job as `fintechBlip` without the initial blip. -/
def fintechOkStream : Nat → HttpResult FintechData :=
  fun _ => .resp 200 ⟨some "succeeded", ["u"]⟩

/-- Batch environment in which request `a` hits a submission transport
error and every other request sails through to one artifact `ub`. -/
def fintechEnvOneBad : String → FintechEnv :=
  fun r =>
    if r = "a" then ⟨.err, fun _ => .err, fun _ => .err⟩
    else
      ⟨.resp 201 ⟨some "p1"⟩,
       fun _ => .resp 200 ⟨some "succeeded", ["ub"]⟩,
       fun _ => .resp 200 ()⟩

/-- Artifact fetcher failing on `u1` only. -/
def fetchFailU1 : String → HttpResult Unit :=
  fun u => if u = "u1" then .err else .resp 200 ()

theorem pollAux_zero (g : Nat → HttpResult PollData) (f : String → HttpResult Unit)
    (a : Nat) : pollAux g f a 0 = ⟨none, 0, [.timeout]⟩ := rfl

theorem pollAux_err (g : Nat → HttpResult PollData) (f : String → HttpResult Unit)
    (a r : Nat) (hg : g a = .err) :
    pollAux g f a (r + 1) =
      ⟨(pollAux g f (a + 1) r).result, (pollAux g f (a + 1) r).queries + 1,
        .query :: .transportError :: (pollAux g f (a + 1) r).trace⟩ := by
  simp only [pollAux, hg]

theorem pollAux_http (g : Nat → HttpResult PollData) (f : String → HttpResult Unit)
    (a r code : Nat) (d : PollData) (hg : g a = .resp code d) (hc : 400 ≤ code) :
    pollAux g f a (r + 1) =
      ⟨(pollAux g f (a + 1) r).result, (pollAux g f (a + 1) r).queries + 1,
        .query :: .transportError :: (pollAux g f (a + 1) r).trace⟩ := by
  simp only [pollAux, hg, if_pos hc]

theorem pollAux_succ_empty (g : Nat → HttpResult PollData) (f : String → HttpResult Unit)
    (a r code : Nat) (d : PollData) (hg : g a = .resp code d) (hc : ¬ 400 ≤ code)
    (hs : d.status = some "succeeded") (ho : d.output = []) :
    pollAux g f a (r + 1) = ⟨none, 1, [.query, .succeededNoOutput]⟩ := by
  simp only [pollAux, hg, if_neg hc, hs, ho]
  simp

theorem pollAux_succ_out (g : Nat → HttpResult PollData) (f : String → HttpResult Unit)
    (a r code : Nat) (d : PollData) (hg : g a = .resp code d) (hc : ¬ 400 ≤ code)
    (hs : d.status = some "succeeded") (ho : d.output ≠ []) :
    pollAux g f a (r + 1) =
      ⟨some (downloadAssets f d.output).files, 1,
        .query :: (downloadAssets f d.output).trace⟩ := by
  simp only [pollAux, hg, if_neg hc, hs]
  simp [List.isEmpty_iff, ho]

theorem pollAux_failed (g : Nat → HttpResult PollData) (f : String → HttpResult Unit)
    (a r code : Nat) (d : PollData) (hg : g a = .resp code d) (hc : ¬ 400 ≤ code)
    (hs : d.status = some "failed") :
    pollAux g f a (r + 1) =
      ⟨none, 1, [.query, .remoteFailed (d.error.getD "Unknown error")]⟩ := by
  simp only [pollAux, hg, if_neg hc, hs]
  simp

theorem pollAux_progress (g : Nat → HttpResult PollData) (f : String → HttpResult Unit)
    (a r code : Nat) (d : PollData) (hg : g a = .resp code d) (hc : ¬ 400 ≤ code)
    (hs : d.status = some "starting" ∨ d.status = some "processing") :
    pollAux g f a (r + 1) =
      ⟨(pollAux g f (a + 1) r).result, (pollAux g f (a + 1) r).queries + 1,
        .query :: .progress d.status :: (pollAux g f (a + 1) r).trace⟩ := by
  have hs1 : d.status ≠ some "succeeded" := by rcases hs with h | h <;> simp [h]
  have hs2 : d.status ≠ some "failed" := by rcases hs with h | h <;> simp [h]
  simp only [pollAux, hg, if_neg hc]
  rcases hs with h | h <;> simp [h]

theorem pollAux_unknown (g : Nat → HttpResult PollData) (f : String → HttpResult Unit)
    (a r code : Nat) (d : PollData) (hg : g a = .resp code d) (hc : ¬ 400 ≤ code)
    (hs : knownStatus d.status = false) :
    pollAux g f a (r + 1) =
      ⟨(pollAux g f (a + 1) r).result, (pollAux g f (a + 1) r).queries + 1,
        .query :: .unknownStatus d.status :: (pollAux g f (a + 1) r).trace⟩ := by
  simp only [knownStatus, Bool.or_eq_false_iff, beq_eq_false_iff_ne, ne_eq] at hs
  obtain ⟨⟨⟨h1, h2⟩, h3⟩, h4⟩ := hs
  simp only [pollAux, hg, if_neg hc]
  simp [h1, h2, h3, h4]

/-- Every non-terminal attempt of `_poll_prediction` preserves the final
result, consumes exactly one status query, and pushes two events. -/
theorem pollAux_continue (g : Nat → HttpResult PollData) (f : String → HttpResult Unit)
    (a r : Nat) (h : isTerminal (g a) = false) :
    (pollAux g f a (r + 1)).result = (pollAux g f (a + 1) r).result ∧
    (pollAux g f a (r + 1)).queries = (pollAux g f (a + 1) r).queries + 1 ∧
    ∃ ev, (pollAux g f a (r + 1)).trace =
      .query :: ev :: (pollAux g f (a + 1) r).trace := by
  cases hg : g a with
  | err => rw [pollAux_err g f a r hg]; exact ⟨rfl, rfl, _, rfl⟩
  | resp code d =>
    by_cases hc : 400 ≤ code
    · rw [pollAux_http g f a r code d hg hc]; exact ⟨rfl, rfl, _, rfl⟩
    · have hterm := h
      rw [hg] at hterm
      simp only [isTerminal, if_neg hc, Bool.or_eq_false_iff,
        beq_eq_false_iff_ne, ne_eq] at hterm
      obtain ⟨h1, h2⟩ := hterm
      by_cases hp : d.status = some "starting" ∨ d.status = some "processing"
      · rw [pollAux_progress g f a r code d hg hc hp]; exact ⟨rfl, rfl, _, rfl⟩
      · push_neg at hp
        have hk : knownStatus d.status = false := by
          simp [knownStatus, h1, h2, hp.1, hp.2]
        rw [pollAux_unknown g f a r code d hg hc hk]; exact ⟨rfl, rfl, _, rfl⟩

/-- A terminal attempt of `_poll_prediction` returns after exactly one
status query. -/
theorem pollAux_terminal (g : Nat → HttpResult PollData) (f : String → HttpResult Unit)
    (a r : Nat) (h : isTerminal (g a) = true) :
    (pollAux g f a (r + 1)).queries = 1 := by
  cases hg : g a with
  | err => rw [hg] at h; simp [isTerminal] at h
  | resp code d =>
    rw [hg] at h
    simp only [isTerminal] at h
    by_cases hc : 400 ≤ code
    · simp [if_pos hc] at h
    · rw [if_neg hc] at h
      simp only [Bool.or_eq_true, beq_iff_eq] at h
      rcases h with hs | hs
      · by_cases ho : d.output = []
        · rw [pollAux_succ_empty g f a r code d hg hc hs ho]
        · rw [pollAux_succ_out g f a r code d hg hc hs ho]
      · rw [pollAux_failed g f a r code d hg hc hs]

/-- The bounded poll loop never issues more status queries than it has
iterations. -/
theorem pollAux_queries_le (g : Nat → HttpResult PollData) (f : String → HttpResult Unit) :
    ∀ r a, (pollAux g f a r).queries ≤ r := by
  intro r
  induction r with
  | zero => intro a; simp [pollAux_zero]
  | succ r ih =>
    intro a
    by_cases h : isTerminal (g a) = true
    · rw [pollAux_terminal g f a r h]; omega
    · obtain ⟨_, hq, _⟩ :=
        pollAux_continue g f a r (by simpa using h)
      rw [hq]
      have := ih (a + 1)
      omega

/-- A run all of whose attempts are non-terminal returns `None`, consumes
its whole iteration budget, and ends in the timeout message. -/
theorem pollAux_run_nonterminal (g : Nat → HttpResult PollData)
    (f : String → HttpResult Unit) :
    ∀ r a, (∀ k, k < r → isTerminal (g (a + k)) = false) →
      (pollAux g f a r).result = none ∧ (pollAux g f a r).queries = r ∧
      PollEvent.timeout ∈ (pollAux g f a r).trace := by
  intro r
  induction r with
  | zero => intro a _; exact ⟨rfl, rfl, by simp [pollAux_zero]⟩
  | succ r ih =>
    intro a h
    have h0 : isTerminal (g a) = false := by simpa using h 0 (by omega)
    obtain ⟨hres, hq, ev, htr⟩ := pollAux_continue g f a r h0
    have hrec := ih (a + 1) (fun k hk => by
      have hx := h (k + 1) (by omega)
      rwa [show a + (k + 1) = a + 1 + k by omega] at hx)
    refine ⟨by rw [hres]; exact hrec.1, by rw [hq, hrec.2.1], ?_⟩
    rw [htr]
    simp [hrec.2.2]

/-- If the attempt at relative index `n` is the first terminal one and
lies within the budget, the loop issues exactly `n + 1` status queries. -/
theorem pollAux_stops (g : Nat → HttpResult PollData) (f : String → HttpResult Unit) :
    ∀ n r a, n < r → isTerminal (g (a + n)) = true →
      (∀ k, k < n → isTerminal (g (a + k)) = false) →
      (pollAux g f a r).queries = n + 1 := by
  intro n
  induction n with
  | zero =>
    intro r a hr ht _
    obtain ⟨r', rfl⟩ : ∃ r', r = r' + 1 := ⟨r - 1, by omega⟩
    exact pollAux_terminal g f a r' (by simpa using ht)
  | succ n ih =>
    intro r a hr ht hk
    obtain ⟨r', rfl⟩ : ∃ r', r = r' + 1 := ⟨r - 1, by omega⟩
    have h0 : isTerminal (g a) = false := by simpa using hk 0 (by omega)
    obtain ⟨_, hq, _⟩ := pollAux_continue g f a r' h0
    rw [hq]
    have hterm : isTerminal (g (a + 1 + n)) = true := by
      rwa [show a + 1 + n = a + (n + 1) by omega]
    have hrec := ih r' (a + 1) (by omega) hterm (fun k hkk => by
      have hx := hk (k + 1) (by omega)
      rwa [show a + (k + 1) = a + 1 + k by omega] at hx)
    omega

/-- `_download_assets` persists exactly the URIs whose GETs are delivered
without `raise_for_status` raising, in order. -/
theorem downloadAssets_files_eq (f : String → HttpResult Unit) :
    ∀ us, (downloadAssets f us).files = us.filter (fun u => fetchOk f u) := by
  intro us
  induction us with
  | nil => rfl
  | cons u us ih =>
    cases hf : f u with
    | err => simp [downloadAssets, hf, fetchOk, List.filter_cons, ih]
    | resp c x =>
      by_cases hc : 400 ≤ c
      · simp only [downloadAssets, hf, if_pos hc, ih, List.filter_cons, fetchOk]
        rw [if_neg (by simp [hc])]
      · simp only [downloadAssets, hf, if_neg hc, ih, List.filter_cons, fetchOk]
        rw [if_pos (by simp [hc])]

/-- C1 counterexample: the poll loop of `generate_ai_icon`
(create_ai_trading_icons.py) is `while True` with no attempt bound — on a
job that keeps reporting `processing` it has already issued 61 status
queries (more than the claimed default bound of 60) and is still running,
so the claim that every poll operation issues at most `maxAttempts`
queries is false on this code. -/
theorem ai_poll_unbounded_counterexample :
    (aiPollFuel aiStreamProcessing fetchAllErr 0 61).2 = 61 ∧
    (aiPollFuel aiStreamProcessing fetchAllErr 0 61).1 = none := by decide

/-- C1 (amended): for the bounded poller `_poll_prediction`
(generate_premium_trading_assets.py and its twins), the number of status
queries never exceeds `maxAttempts`, and if the `(n+1)`-st query (the one
at attempt index `n < maxAttempts`) is the first to return a terminal
response, polling stops immediately, having issued exactly `n + 1`
queries.  The `while True` pollers of create_ai_trading_icons.py and
create_professional_fintech_icon.py have no such bound. -/
theorem pollPrediction_query_budget (g : Nat → HttpResult PollData)
    (f : String → HttpResult Unit) (m : Nat) :
    (pollPrediction g f m).queries ≤ m ∧
    (∀ n, n < m → isTerminal (g n) = true →
      (∀ k, k < n → isTerminal (g k) = false) →
      (pollPrediction g f m).queries = n + 1) := by
  constructor
  · exact pollAux_queries_le g f m 0
  · intro n hn ht hk
    exact pollAux_stops g f n m 0 hn (by simpa using ht)
      (fun k hkk => by simpa using hk k hkk)

/-- C1 witness: on a job that reports `processing` once and then succeeds,
`_poll_prediction` with the default budget of 60 issues exactly 2 status
queries. -/
theorem pollPrediction_query_budget_witness :
    (pollPrediction streamTerm fetchAllOk 60).queries = 1 + 1 :=
  (pollPrediction_query_budget streamTerm fetchAllOk 60).2 1 (by decide)
    (by decide)
    (fun k hk => by
      have hk0 : k = 0 := by omega
      subst hk0; decide)

/-- C2 counterexample: `generate_ai_icon` proceeds to polling only when
the submission response code is exactly 201, so a delivered 200 — a 2xx
success — yields no handle; and `_make_request` uses `raise_for_status`,
which raises only for codes ≥ 400, so a delivered non-2xx 304 with an id
yields a handle.  Both directions of "handle iff 2xx" are false on the
code. -/
theorem submit_iff_2xx_counterexample :
    aiSubmit (.resp 200 ⟨some "p1"⟩) = none ∧ is2xx 200 = true ∧
    makeRequestSubmit (.resp 304 ⟨some "p2"⟩) = .handle "p2" ∧
    is2xx 304 = false := by decide

/-- C2 (amended): `_make_request` proceeds with a job handle iff the
submission response is delivered with status < 400 and its body carries an
id (a missing id on a delivered < 400 response escapes as an uncaught
`KeyError`); `generate_ai_icon` obtains a handle iff the status is exactly
201 and the body carries an id; transport errors and codes ≥ 400 take the
caught-`RequestException` path, which returns `None` without capturing the
response body. -/
theorem submit_handle_conditions (code : Nat) (body : SubmitBody) :
    ((∃ i, makeRequestSubmit (.resp code body) = .handle i) ↔
      (code < 400 ∧ body.id.isSome = true)) ∧
    ((aiSubmit (.resp code body)).isSome = true ↔
      (code = 201 ∧ body.id.isSome = true)) ∧
    makeRequestSubmit HttpResult.err = .submissionError ∧
    (400 ≤ code → makeRequestSubmit (.resp code body) = .submissionError) := by
  obtain ⟨oid⟩ := body
  refine ⟨?_, ?_, rfl, ?_⟩
  · constructor
    · rintro ⟨i, hi⟩
      simp only [makeRequestSubmit] at hi
      by_cases hc : 400 ≤ code
      · rw [if_pos hc] at hi; exact absurd hi (by simp)
      · rw [if_neg hc] at hi
        cases oid with
        | none => exact absurd hi (by simp)
        | some j => exact ⟨by omega, by simp⟩
    · rintro ⟨hc, hid⟩
      cases oid with
      | none => simp at hid
      | some j =>
        exact ⟨j, by simp [makeRequestSubmit, if_neg (by omega : ¬ 400 ≤ code)]⟩
  · constructor
    · intro h
      simp only [aiSubmit] at h
      by_cases hc : code = 201
      · subst hc; simpa using h
      · rw [if_neg hc] at h; simp at h
    · rintro ⟨hc, hid⟩
      subst hc
      simpa [aiSubmit] using hid
  · intro hc
    simp [makeRequestSubmit, if_pos hc]

/-- C2 witness: a delivered 500 response takes the `SubmissionError`
path of `_make_request`. -/
theorem submit_handle_conditions_witness :
    makeRequestSubmit (.resp 500 ⟨some "x"⟩) = .submissionError :=
  (submit_handle_conditions 500 ⟨some "x"⟩).2.2.2 (by omega)

/-- C3 counterexample: a job that never leaves `processing` within the
60-attempt budget and a job the service explicitly reports as failed both
make `_poll_prediction` return `None` — the two outcomes are equal in the
result type seen by the caller, so they are not distinguishable there. -/
theorem timeout_vs_failure_same_result :
    (pollPrediction streamProcessing fetchAllOk 60).result = none ∧
    (pollPrediction streamFail fetchAllOk 60).result = none ∧
    (pollPrediction streamProcessing fetchAllOk 60).result =
      (pollPrediction streamFail fetchAllOk 60).result := by decide

/-- C3 (amended): exhausting the attempt budget and a service-reported
failure both yield the caller-visible value `None`; the two cases are
distinguished only in the logged trace — the exhausted run prints the
timeout message, the failed run prints the remote error and never reaches
the timeout message. -/
theorem timeout_failure_distinct_only_in_trace (g g' : Nat → HttpResult PollData)
    (f f' : String → HttpResult Unit) (m : Nat) (hm : 0 < m)
    (h : ∀ n, n < m → isTerminal (g n) = false)
    (h' : isFailed (g' 0) = true) :
    (pollPrediction g f m).result = none ∧
    (pollPrediction g' f' m).result = none ∧
    PollEvent.timeout ∈ (pollPrediction g f m).trace ∧
    ∃ e, PollEvent.remoteFailed e ∈ (pollPrediction g' f' m).trace ∧
      PollEvent.timeout ∉ (pollPrediction g' f' m).trace := by
  have hg := pollAux_run_nonterminal g f m 0 (fun k hk => by simpa using h k hk)
  obtain ⟨r, rfl⟩ : ∃ r, m = r + 1 := ⟨m - 1, by omega⟩
  cases hg0 : g' 0 with
  | err => rw [hg0] at h'; simp [isFailed] at h'
  | resp c d =>
    rw [hg0] at h'
    simp only [isFailed] at h'
    by_cases hc : 400 ≤ c
    · rw [if_pos hc] at h'; exact absurd h' (by simp)
    · rw [if_neg hc] at h'
      have hs : d.status = some "failed" := by simpa using h'
      have hfail := pollAux_failed g' f' 0 r c d hg0 hc hs
      refine ⟨hg.1, ?_, hg.2.2, d.error.getD "Unknown error", ?_, ?_⟩
      · show (pollAux g' f' 0 (r + 1)).result = none
        rw [hfail]
      · show _ ∈ (pollAux g' f' 0 (r + 1)).trace
        rw [hfail]; simp
      · show PollEvent.timeout ∉ (pollAux g' f' 0 (r + 1)).trace
        rw [hfail]; simp

/-- C3 witness: with one attempt of budget, an all-`processing` job and an
immediately failed job both return `None`, with the distinguishing trace
events present. -/
theorem timeout_failure_distinct_only_in_trace_witness :
    (pollPrediction streamProcessing fetchAllOk 1).result = none ∧
    (pollPrediction streamFail fetchAllOk 1).result = none ∧
    PollEvent.timeout ∈ (pollPrediction streamProcessing fetchAllOk 1).trace ∧
    ∃ e, PollEvent.remoteFailed e ∈ (pollPrediction streamFail fetchAllOk 1).trace ∧
      PollEvent.timeout ∉ (pollPrediction streamFail fetchAllOk 1).trace :=
  timeout_failure_distinct_only_in_trace streamProcessing streamFail
    fetchAllOk fetchAllOk 1 (by decide) (fun n _ => rfl) (by decide)

/-- C4 counterexample: in `generate_fintech_icon`
(create_fintech_mobile_icon.py) the poll loop sits inside one blanket
`try`, so a transport error on the very first status query aborts the
whole poll with `None` — while the identical job stream without the blip
yields the artifact.  A single transient network failure does, by itself,
end the poll there (likewise in create_ai_trading_icons.py and
create_professional_fintech_icon.py). -/
theorem transport_error_aborts_fintech_poll :
    fintechPollAux fintechBlip fetchAllOk 0 60 = none ∧
    fintechPollAux fintechOkStream fetchAllOk 0 60 = some "u" := by decide

/-- C4 (amended): in `_poll_prediction` a transport error (a raised GET or
`raise_for_status` on a code ≥ 400) is caught inside the loop: it consumes
exactly one attempt of the budget and the loop retries, so a run of
nothing but transport errors consumes the entire budget, and a single blip
followed by success still yields the artifacts after exactly two queries.
In the `try`-wrapped pollers of create_fintech_mobile_icon.py,
create_ai_trading_icons.py and create_professional_fintech_icon.py a
transport error instead aborts the poll. -/
theorem transport_error_consumes_attempt (g g' : Nat → HttpResult PollData)
    (f f' : String → HttpResult Unit) (m : Nat)
    (hall : ∀ n, isTransportFail (g n) = true)
    (h0 : isTransportFail (g' 0) = true)
    (h1 : isSucceededWithOutput (g' 1) = true)
    (hm : 2 ≤ m) :
    (pollPrediction g f m).queries = m ∧
    (pollPrediction g f m).result = none ∧
    (pollPrediction g' f' m).queries = 2 ∧
    (pollPrediction g' f' m).result.isSome = true := by
  have hnt : ∀ n, isTerminal (g n) = false := by
    intro n
    cases hgn : g n with
    | err => rfl
    | resp c d =>
      have := hall n
      rw [hgn] at this
      simp only [isTransportFail] at this
      by_cases hc : 400 ≤ c
      · simp [isTerminal, if_pos hc]
      · rw [if_neg hc] at this; exact absurd this (by simp)
  have hrun := pollAux_run_nonterminal g f m 0 (fun k _ => hnt (0 + k))
  obtain ⟨m', rfl⟩ : ∃ m', m = m' + 1 + 1 := ⟨m - 2, by omega⟩
  have step1 :
      (pollAux g' f' 0 (m' + 1 + 1)).result = (pollAux g' f' 1 (m' + 1)).result ∧
      (pollAux g' f' 0 (m' + 1 + 1)).queries = (pollAux g' f' 1 (m' + 1)).queries + 1 := by
    cases hg0 : g' 0 with
    | err => rw [pollAux_err g' f' 0 (m' + 1) hg0]; exact ⟨rfl, rfl⟩
    | resp c d =>
      have := h0
      rw [hg0] at this
      simp only [isTransportFail] at this
      by_cases hc : 400 ≤ c
      · rw [pollAux_http g' f' 0 (m' + 1) c d hg0 hc]; exact ⟨rfl, rfl⟩
      · rw [if_neg hc] at this; exact absurd this (by simp)
  have step2 :
      (pollAux g' f' 1 (m' + 1)).result.isSome = true ∧
      (pollAux g' f' 1 (m' + 1)).queries = 1 := by
    cases hg1 : g' 1 with
    | err => rw [hg1] at h1; simp [isSucceededWithOutput] at h1
    | resp c d =>
      rw [hg1] at h1
      simp only [isSucceededWithOutput] at h1
      by_cases hc : 400 ≤ c
      · rw [if_pos hc] at h1; exact absurd h1 (by simp)
      · rw [if_neg hc] at h1
        simp only [Bool.and_eq_true, beq_iff_eq] at h1
        have ho : d.output ≠ [] := by
          intro he
          rw [he] at h1
          simp at h1
        rw [pollAux_succ_out g' f' 1 m' c d hg1 hc h1.1 ho]
        exact ⟨rfl, rfl⟩
  refine ⟨hrun.2.1, hrun.1, ?_, ?_⟩
  · show (pollAux g' f' 0 (m' + 1 + 1)).queries = 2
    rw [step1.2, step2.2]
  · show (pollAux g' f' 0 (m' + 1 + 1)).result.isSome = true
    rw [step1.1]; exact step2.1

/-- C4 witness: an all-error stream consumes the whole 2-attempt budget,
and a one-blip-then-success stream yields artifacts after two queries. -/
theorem transport_error_consumes_attempt_witness :
    (pollPrediction streamErr fetchAllOk 2).queries = 2 ∧
    (pollPrediction streamErr fetchAllOk 2).result = none ∧
    (pollPrediction streamBlip fetchAllOk 2).queries = 2 ∧
    (pollPrediction streamBlip fetchAllOk 2).result.isSome = true :=
  transport_error_consumes_attempt streamErr streamBlip fetchAllOk fetchAllOk 2
    (fun _ => rfl) (by decide) (by decide) (by decide)

/-- C5: in the batch loop of create_fintech_mobile_icon.py's `main`,
every pipeline error — submission rejection, transport failure, poll
timeout, fetch failure, even malformed bodies — is absorbed by the
pipeline's blanket exception handler into `None`, so for every environment
the orchestrator invokes the pipeline for every request of the batch, in
order, and each request's outcome is a function of that request's remote
behaviour alone: no pipeline failure aborts the batch and no error is
process-fatal. -/
theorem batch_runs_every_request (env : String → FintechEnv) (reqs : List String) :
    (runFintechBatch env reqs).2 = reqs ∧
    (runFintechBatch env reqs).1 =
      reqs.filterMap (fun r => fintechPipeline (env r)) := by
  induction reqs with
  | nil => exact ⟨rfl, rfl⟩
  | cons r rs ih =>
    refine ⟨?_, ?_⟩
    · simp [runFintechBatch, ih.1]
    · cases h : fintechPipeline (env r) <;>
        simp [runFintechBatch, h, List.filterMap_cons, ih.2]

/-- C6 counterexample: in a batch of the two requests `a` and `b` where
`a` hits a submission error and `b` succeeds, the collected results list
holds exactly one entry — request `a` has no outcome of any kind in the
batch result, so the claim that every submitted request gets exactly one
recorded outcome is false on this code. -/
theorem failed_request_dropped_from_batch :
    (runFintechBatch fintechEnvOneBad ["a", "b"]).1 = ["ub"] ∧
    ((runFintechBatch fintechEnvOneBad ["a", "b"]).1).length ≠
      (["a", "b"] : List String).length := by decide

/-- C6 (amended): the batch result of the icon-generator `main` loops
records one entry per successful request only; requests whose pipeline
fails are silently omitted from the returned collection (surfacing only in
transient log output), so the result length equals the number of
successes, not the number of submitted requests. -/
theorem batch_records_only_successes (env : String → FintechEnv) (reqs : List String) :
    ((runFintechBatch env reqs).1).length =
      (reqs.filter (fun r => (fintechPipeline (env r)).isSome)).length := by
  induction reqs with
  | nil => rfl
  | cons r rs ih =>
    cases h : fintechPipeline (env r) <;>
      simp [runFintechBatch, h, List.filter_cons, ih]

/-- C7 counterexample: with two output URIs where the first GET raises,
`_download_assets` logs the failure, keeps going, fetches the second URI
and returns the partial artifact set — the first failing URI does not
abort the remaining fetches, so fail-fast is false on this code. -/
theorem download_continues_after_failure :
    (downloadAssets fetchFailU1 ["u1", "u2"]).files = ["u2"] ∧
    PollEvent.downloadFailed "u1" ∈ (downloadAssets fetchFailU1 ["u1", "u2"]).trace ∧
    PollEvent.downloaded "u2" ∈ (downloadAssets fetchFailU1 ["u1", "u2"]).trace := by
  decide

/-- C7 (amended): artifact fetching in `_download_assets` is best-effort
per URI: every URI of the job is attempted in order, a failing URI is
skipped with a logged error, and the (possibly partial) set of
successfully fetched artifacts is produced and persisted. -/
theorem download_best_effort (f : String → HttpResult Unit) (us : List String) :
    (downloadAssets f us).files = us.filter (fun u => fetchOk f u) ∧
    (downloadAssets f us).trace =
      us.map (fun u =>
        if fetchOk f u then PollEvent.downloaded u else PollEvent.downloadFailed u) := by
  refine ⟨downloadAssets_files_eq f us, ?_⟩
  induction us with
  | nil => rfl
  | cons u us ih =>
    cases hf : f u with
    | err => simp [downloadAssets, hf, fetchOk, ih]
    | resp c x =>
      by_cases hc : 400 ≤ c
      · simp only [downloadAssets, hf, if_pos hc, ih, List.map_cons, fetchOk]
        rw [if_neg (by simp [hc])]
      · simp only [downloadAssets, hf, if_neg hc, ih, List.map_cons, fetchOk]
        rw [if_pos (by simp [hc])]

/-- C8: when a poll attempt of `_poll_prediction` is delivered without
`raise_for_status` raising and its status string is none of `starting`,
`processing`, `succeeded`, `failed`, the poller does not fail: the final
result is whatever the continued loop produces, the attempt consumes
exactly one status query, and the unknown status surfaces only as the
logged warning event. -/
theorem unknown_status_treated_as_running (g : Nat → HttpResult PollData)
    (f : String → HttpResult Unit) (a r code : Nat) (d : PollData)
    (hg : g a = .resp code d) (hc : code < 400)
    (hs : knownStatus d.status = false) :
    (pollAux g f a (r + 1)).result = (pollAux g f (a + 1) r).result ∧
    (pollAux g f a (r + 1)).queries = (pollAux g f (a + 1) r).queries + 1 ∧
    PollEvent.unknownStatus d.status ∈ (pollAux g f a (r + 1)).trace := by
  rw [pollAux_unknown g f a r code d hg (by omega) hs]
  exact ⟨rfl, rfl, by simp⟩

/-- C8 witness: a delivered `queued` status on the first of one remaining
attempt is retried with the warning event emitted. -/
theorem unknown_status_treated_as_running_witness :
    (pollAux streamQueued fetchAllOk 0 1).result =
      (pollAux streamQueued fetchAllOk 1 0).result ∧
    (pollAux streamQueued fetchAllOk 0 1).queries =
      (pollAux streamQueued fetchAllOk 1 0).queries + 1 ∧
    PollEvent.unknownStatus (some "queued") ∈
      (pollAux streamQueued fetchAllOk 0 1).trace :=
  unknown_status_treated_as_running streamQueued fetchAllOk 0 0 200
    ⟨some "queued", [], none⟩ rfl (by decide) (by decide)

/-- C9 counterexample: in `generate_ai_analytics_icon` the guard
`variation <= len(selected_prompts)` admits negative variations, and
`selected_prompts[variation - 1]` with variation −3 indexes −4 into a
3-element list, raising `IndexError` — payload construction is not total
over all variation numbers outside the available range. -/
theorem variation_index_raises : selectPrompt "modern" (-3) = none := by decide

/-- Every style resolves, via `prompts.get(style, prompts["modern"])`, to
one of the three 3-element prompt lists. -/
theorem aiAnalyticsPrompts_length (style : String) :
    ∃ sp, aiAnalyticsPrompts style = some sp ∧ sp.length = 3 := by
  refine ⟨pyDictGet aiAnalyticsPromptTable style modernPrompts, rfl, ?_⟩
  cases hf : List.find? (fun p => p.1 == style) aiAnalyticsPromptTable with
  | none => simp [pyDictGet, hf]; rfl
  | some pr =>
    have hmem := List.mem_of_find?_eq_some hf
    simp only [aiAnalyticsPromptTable, List.mem_cons, List.not_mem_nil,
      or_false] at hmem
    rcases hmem with h | h | h <;> subst h <;> simp [pyDictGet, hf] <;> rfl

/-- A Python index into a list is in range — and the access total — iff it
lies in `[-len, len)`. -/
theorem pyIndex_isSome {α : Type} (l : List α) (i : Int)
    (h1 : -(l.length : Int) ≤ i) (h2 : i < (l.length : Int)) :
    (pyIndex l i).isSome = true := by
  simp only [pyIndex]
  by_cases hneg : i < 0
  · rw [if_pos hneg, if_pos (by omega)]
    have hlt : (i + l.length).toNat < l.length := by omega
    rw [List.get?_eq_get hlt]
    rfl
  · rw [if_neg hneg, if_pos (by omega)]
    have hlt : i.toNat < l.length := by omega
    rw [List.get?_eq_get hlt]
    rfl

/-- C9 (amended): the style/icon/mood dict lookups are total for every
argument string (the `.get` default always exists), and the variation
selection of `generate_ai_analytics_icon` is total for every variation
≥ −2 (that is, ≥ 1 − len for the 3-element lists) — including every
variation above the available range, which falls back to the first prompt
— but variations ≤ −3 raise `IndexError`. -/
theorem prompt_lookup_total_in_safe_range (style c : String) (v : Int) :
    (tradingButtonPrompt style c).isSome = true ∧
    (-2 ≤ v → (selectPrompt style v).isSome = true) := by
  constructor
  · rfl
  · intro hv
    obtain ⟨sp, hsp, hlen⟩ := aiAnalyticsPrompts_length style
    simp only [selectPrompt, hsp]
    by_cases hle : v ≤ (sp.length : Int)
    · rw [if_pos hle]
      exact pyIndex_isSome sp (v - 1) (by rw [hlen]; omega)
        (by rw [hlen]; rw [hlen] at hle; omega)
    · rw [if_neg hle]
      exact pyIndex_isSome sp 0 (by omega) (by rw [hlen]; omega)

/-- C9 witness: an unrecognized style with an out-of-range positive
variation still constructs a prompt. -/
theorem prompt_lookup_total_in_safe_range_witness :
    (tradingButtonPrompt "weird" "green").isSome = true ∧
    (selectPrompt "weird" 7).isSome = true :=
  ⟨(prompt_lookup_total_in_safe_range "weird" "green" 7).1,
   (prompt_lookup_total_in_safe_range "weird" "green" 7).2 (by decide)⟩

/-- C10: when a poll attempt of `_poll_prediction` is delivered with
status `succeeded` but an empty (or absent) output list, the poller
returns `None` after that single query, and no artifact download is
attempted — the empty success is collapsed into the failure outcome at the
caller interface. -/
theorem empty_success_returns_none (g : Nat → HttpResult PollData)
    (f : String → HttpResult Unit) (a r code : Nat) (d : PollData)
    (hg : g a = .resp code d) (hc : code < 400)
    (hs : d.status = some "succeeded") (ho : d.output = []) :
    (pollAux g f a (r + 1)).result = none ∧
    (pollAux g f a (r + 1)).queries = 1 ∧
    (∀ u, PollEvent.downloaded u ∉ (pollAux g f a (r + 1)).trace) ∧
    (∀ u, PollEvent.downloadFailed u ∉ (pollAux g f a (r + 1)).trace) := by
  rw [pollAux_succ_empty g f a r code d hg (by omega) hs ho]
  exact ⟨rfl, rfl, fun u => by simp, fun u => by simp⟩

/-- C10 witness: a job reporting `succeeded` with no output URIs under the
default 60-attempt budget yields `None` after one query with no download
activity on the URI `art`. -/
theorem empty_success_returns_none_witness :
    (pollAux streamEmptySuccess fetchAllOk 0 60).result = none ∧
    (pollAux streamEmptySuccess fetchAllOk 0 60).queries = 1 ∧
    PollEvent.downloaded "art" ∉ (pollAux streamEmptySuccess fetchAllOk 0 60).trace := by
  have h := empty_success_returns_none streamEmptySuccess fetchAllOk 0 59 200
    ⟨some "succeeded", [], none⟩ rfl (by decide) rfl rfl
  exact ⟨h.1, h.2.1, h.2.2.1 "art"⟩

end TAAI
